import Mathlib

/-
Verification development for the variant reconciliation and artifact-sync
engine of the stock-images repository (src/utils.py).

The engine is shallowly embedded: the Python functions of src/utils.py are
translated into pure Lean functions that thread an explicit local filesystem
state and return a trace of outward side effects.  External collaborators
(the HTTP image fetch, the MD5 digest, the PIL renderer) are modelled as
components of an environment record, since their behaviour is decided
outside the repository; the control flow around them is translated
faithfully from the source.
-/

set_option maxHeartbeats 1000000

namespace StockImages

/-- Bytes of a binary blob (image content), modelled as a list of naturals. -/
abbrev Bytes := List Nat

/-- Local filesystem state as seen by src/utils.py: a finite map from file
paths to contents, plus the set of directories that exist.  Models
os.path.exists / open / os.remove / os.makedirs. -/
structure FS where
  files : List (String × Bytes)
  dirs : List String
deriving DecidableEq

/-- Content of the file at path p, if it exists (models os.path.exists plus
open(p, "rb").read()). -/
def FS.lookupFile (fs : FS) (p : String) : Option Bytes :=
  (fs.files.find? (fun kv => kv.1 = p)).map Prod.snd

/-- Write data to path p, overwriting any previous content (models
open(p, "wb").write(data)). -/
def FS.writeFile (fs : FS) (p : String) (data : Bytes) : FS :=
  { fs with files := (p, data) :: fs.files.filter (fun kv => ¬ kv.1 = p) }

/-- Remove the file at path p (models os.remove). -/
def FS.removeFile (fs : FS) (p : String) : FS :=
  { fs with files := fs.files.filter (fun kv => ¬ kv.1 = p) }

/-- Environment: the external collaborators of src/utils.py.
fetch models requests.get(url) — none stands for a non-200 status or a
raised exception; md5 models hashlib.md5(bytes).hexdigest(); render models
PIL image open + badge drawing + JPEG re-encode for given source bytes and
badge text — none stands for a raised rendering exception (malformed bytes,
font failure); cwd models os.getcwd(). -/
structure Env where
  fetch : String → Option Bytes
  md5 : Bytes → String
  render : Bytes → String → Option Bytes
  cwd : String

/-- Outward side effects of the engine, in the order they are performed.
fetched records a requests.get call for an image URL; mkdir records an
os.makedirs call; put records an s3.upload_fileobj call to R2 with the
object key, the badge text drawn on the image, and the rendered bytes;
deleteRemote records a remote object deletion (src/utils.py never issues
one; the constructor exists so that claims about deletions are statable). -/
inductive Effect where
  | fetched (url : String)
  | mkdir (path : String)
  | put (key : String) (badge : String) (rendered : Bytes)
  | deleteRemote (key : String)
deriving DecidableEq

/-- True when the effect is a remote deletion. -/
def Effect.isDelete : Effect → Bool
  | .deleteRemote _ => true
  | _ => false

/-- True when the effect is a remote upload. -/
def Effect.isPut : Effect → Bool
  | .put _ _ _ => true
  | _ => false

/-- True when the effect is an image fetch. -/
def Effect.isFetch : Effect → Bool
  | .fetched _ => true
  | _ => false

/-- True when the effect is a directory creation. -/
def Effect.isMkdir : Effect → Bool
  | .mkdir _ => true
  | _ => false

/-- Number of remote uploads in an effect trace. -/
def countPuts (l : List Effect) : Nat := (l.filter Effect.isPut).length

/-- Number of remote deletions in an effect trace. -/
def countDeletes (l : List Effect) : Nat := (l.filter Effect.isDelete).length

/-- Number of image fetches in an effect trace. -/
def countFetches (l : List Effect) : Nat := (l.filter Effect.isFetch).length

/-- Number of directory creations in an effect trace. -/
def countMkdirs (l : List Effect) : Nat := (l.filter Effect.isMkdir).length

/-- os.path.join for the POSIX separator, as used by src/utils.py at runtime
(the right-hand segments produced by the engine are never absolute, so the
join is plain concatenation with a slash). -/
def joinPath (a b : String) : String := a ++ "/" ++ b

/-- Image entry of a product payload ({id, src}); id = none models a JSON
image object with no "id" key, on which image["id"] raises KeyError
(src/utils.py line 150). -/
structure ImageEntry where
  id : Option Int
  src : String
deriving DecidableEq

/-- Variant of a product payload.  image_id = none models an absent or null
image_id (variant.get yields None); inventory_quantity = none models an
absent key (variant.get(_, 0) yields 0) while some none models a JSON null
(variant.get(_, 0) yields None, and None <= 0 raises TypeError); price and
the option fields model variant.get with defaults "0" and "". -/
structure Variant where
  id : Int
  image_id : Option Int
  inventory_quantity : Option (Option Int)
  price : Option String
  option1 : Option String
  option2 : Option String
  option3 : Option String
deriving DecidableEq

/-- Product of an event payload.  published_at = none models an absent or
null field (falsy); tags = none models an absent "tags" key. -/
structure Product where
  published_at : Option String
  tags : Option String
  variants : List Variant
  images : List ImageEntry
deriving DecidableEq

/-- Inbound event payload: either {"products": [...]} or a bare single
product object (src/utils.py line 116: payload.get("products", [payload])). -/
inductive Payload where
  | batch (products : List Product)
  | single (product : Product)
deriving DecidableEq

/-- List of products iterated by handle_variant_update
(payload.get("products", [payload])). -/
def Payload.productList : Payload → List Product
  | .batch ps => ps
  | .single p => [p]

/-- Python truthiness of product.get("published_at"): false for an absent
or null field and for the empty string. -/
def truthyOptStr : Option String → Bool
  | none => false
  | some s => !(s = "")

/-- ASCII lowering of a string, modelling str.lower() on the tag strings
used by this repository (ASCII tags). -/
def pyLower (s : String) : String := String.mk (s.data.map Char.toLower)

/-- Characters of needle occur contiguously at the head of hay. -/
def isSubAt : List Char → List Char → Bool
  | _, [] => true
  | [], _ :: _ => false
  | h :: hs, n :: ns => h == n && isSubAt hs ns

/-- Python substring containment (needle in hay) over strings. -/
def containsSubstr (hay needle : String) : Bool :=
  (List.range (hay.data.length + 1)).any (fun i => isSubAt (hay.data.drop i) needle.data)

/-- Python str.endswith over strings (ASCII), used on the folder paths. -/
def strEndsWith (s suffix : String) : Bool := suffix.data.isSuffixOf s.data

/-- Word character in the sense of the re module \w for the ASCII range:
alphanumeric or underscore. -/
def isWordChar (c : Char) : Bool := c.isAlphanum || c == '_'

/-- Whether position i of cs holds a word character (false past the end). -/
def wordAt (cs : List Char) (i : Nat) : Bool :=
  match cs.get? i with
  | some c => isWordChar c
  | none => false

/-- Alternatives of the first branch of size_pattern
(src/utils.py line 20): XS, S, M, L, XL, XXL, XXXL. -/
def sizeTokens : List (List Char) :=
  [['X', 'S'], ['S'], ['M'], ['L'], ['X', 'L'], ['X', 'X', 'L'], ['X', 'X', 'X', 'L']]

/-- Token t (nonempty, all word characters) occurs in cs at position i with
a word boundary on both sides.  Because every character of the tokens of
size_pattern is a word character, the boundary reduces to the adjacent
outside character being a non-word character or absent. -/
def tokenOccursAt (cs : List Char) (t : List Char) (i : Nat) : Bool :=
  isSubAt (cs.drop i) t && (i == 0 || !wordAt cs (i - 1)) && !wordAt cs (i + t.length)

/-- re.search with the compiled size_pattern of src/utils.py line 20,
regex \x62(?:XS|S|M|L|XL|XXL|XXXL)\x62|\d+ (with \x62 the boundary \b), as a
boolean: the search succeeds iff some position carries a word-bounded size
token or the string contains a decimal digit. -/
def size_pattern_search (s : String) : Bool :=
  let cs := s.data
  (List.range (cs.length + 1)).any (fun i => sizeTokens.any (fun t => tokenOccursAt cs t i))
    || cs.any Char.isDigit

/-- Characters replaced by sanitize_directory_name (src/utils.py line 48). -/
def invalidPathChars : List Char := ['<', '>', ':', '"', '/', '\\', '|', '?', '*']

/-- Replacement performed by re.sub on one character: an invalid path
character becomes an underscore. -/
def sanitizeChar (c : Char) : Char := if invalidPathChars.contains c then '_' else c

/-- re.sub of the class of invalid path characters with an underscore
(src/utils.py lines 47 and 48). -/
def sanitize_directory_name (name : String) : String :=
  String.mk (name.data.map sanitizeChar)

/-- Size bucket of a variant (src/utils.py line 138): the first option value
on which size_pattern.search succeeds, sanitized, else the literal
"default". -/
def variantSizeBucket (options : List String) : String :=
  ((options.find? size_pattern_search).map sanitize_directory_name).getD "default"

/-- Truncation of a Python decimal string to integer units, modelling
int(float(price)) of src/utils.py line 63 on the subset
[sign]digits[.digits] of float literals; none models a raised ValueError. -/
def pythonIntFloat (s : String) : Option Int :=
  let cs := s.data
  let signedBody : Bool × List Char :=
    match cs with
    | '-' :: t => (true, t)
    | '+' :: t => (false, t)
    | t => (false, t)
  let neg := signedBody.1
  let body := signedBody.2
  let intPart := body.takeWhile (fun c => c != '.')
  let rest := body.dropWhile (fun c => c != '.')
  let frac : List Char :=
    match rest with
    | [] => []
    | _ :: t => t
  if intPart.all Char.isDigit && frac.all Char.isDigit &&
      (!intPart.isEmpty || !frac.isEmpty) && frac.all (fun c => c != '.') then
    let n : Nat := intPart.foldl (fun a c => a * 10 + (c.toNat - 48)) 0
    some (if neg then -(n : Int) else (n : Int))
  else none

/-- Result of download_image_if_new: the returned boolean, the local
filesystem after the call, and the outward effects of the call. -/
structure DownloadResult where
  changed : Bool
  fs : FS
  effects : List Effect
deriving DecidableEq

/-- download_image_if_new (src/utils.py lines 79 to 97): fetch the image
URL; on a non-200 status or exception return False; otherwise compare the
MD5 digest of the fetched bytes with the digest of the file already at
image_path (when one exists) and return False on equality; otherwise store
the fetched bytes at image_path and return True. -/
def download_image_if_new (env : Env) (fs : FS) (image_url : String) (image_path : String) :
    DownloadResult :=
  match env.fetch image_url with
  | none => ⟨false, fs, [Effect.fetched image_url]⟩
  | some image_data =>
    let new_hash := env.md5 image_data
    match fs.lookupFile image_path with
    | some existing =>
      if env.md5 existing = new_hash then ⟨false, fs, [Effect.fetched image_url]⟩
      else ⟨true, fs.writeFile image_path image_data, [Effect.fetched image_url]⟩
    | none => ⟨true, fs.writeFile image_path image_data, [Effect.fetched image_url]⟩

/-- add_price_to_image (src/utils.py lines 54 to 77): open the local file at
image_path, draw the badge text "<int(float(price))> DH", upload the result
to the R2 key "{size_option}/{folder_name}/{variant_id}.jpg", then remove
the local file.  Any exception (missing or malformed file, price that
float() rejects, rendering failure) is caught and leaves the state
untouched; on the success path the local file is removed after the upload. -/
def add_price_to_image (env : Env) (fs : FS) (image_path : String) (price : String)
    (size_option : String) (folder_name : String) (variant_id : Int) : FS × List Effect :=
  match fs.lookupFile image_path with
  | none => (fs, [])
  | some bytes =>
    match pythonIntFloat price with
    | none => (fs, [])
    | some p =>
      let price_text := toString p ++ " DH"
      match env.render bytes price_text with
      | none => (fs, [])
      | some rendered =>
        let key := size_option ++ "/" ++ folder_name ++ "/" ++ toString variant_id ++ ".jpg"
        (fs.removeFile image_path, [Effect.put key price_text rendered])

/-- create_directory (src/utils.py lines 50 to 52): os.makedirs when the
path does not exist yet. -/
def create_directory (fs : FS) (path : String) : FS × List Effect :=
  if fs.dirs.contains path then (fs, [])
  else ({ fs with dirs := path :: fs.dirs }, [Effect.mkdir path])

/-- Directory-creation loop of src/utils.py lines 143 to 145, over the
truthy folders. -/
def createDirs (fs : FS) : List String → FS × List Effect
  | [] => (fs, [])
  | d :: rest =>
    let r := create_directory fs d
    let r2 := createDirs r.1 rest
    (r2.1, r.2 ++ r2.2)

/-- Image URL lookup of src/utils.py lines 148 to 152: first image whose
"id" equals the variant image_id; an image object without an "id" key makes
image["id"] raise KeyError, returned as an error. -/
def findImageSrc : List ImageEntry → Option Int → Except String (Option String)
  | [], _ => .ok none
  | img :: rest, image_id =>
    match img.id with
    | none => .error "KeyError: id"
    | some i => if (some i : Option Int) = image_id then .ok (some img.src)
                else findImageSrc rest image_id

/-- Body of the placement loop of src/utils.py lines 155 to 161 for one
folder: build the local image path, run download_image_if_new, and when it
reports a change derive the audience folder name from the folder suffix and
run add_price_to_image. -/
def processFolder (env : Env) (fs : FS) (url : String) (price : String)
    (size_option : String) (vid : Int) (folder : String) : FS × List Effect :=
  let image_path := joinPath folder (toString vid ++ ".jpg")
  let d := download_image_if_new env fs url image_path
  if d.changed then
    let folder_name := if strEndsWith folder "girls" then "girls" else "boys"
    let a := add_price_to_image env d.fs image_path price size_option folder_name vid
    (a.1, d.effects ++ a.2)
  else (d.fs, d.effects)

/-- Placement loop of src/utils.py lines 155 to 161 over
filter(None, [girls_directory, boys_directory]). -/
def processPlacements (env : Env) (fs : FS) (url : String) (price : String)
    (size_option : String) (vid : Int) : List String → FS × List Effect
  | [] => (fs, [])
  | folder :: rest =>
    let r := processFolder env fs url price size_option vid folder
    let r2 := processPlacements env r.1 url price size_option vid rest
    (r2.1, r.2 ++ r2.2)

/-- Result of one step of the reconciliation loop: the filesystem, the
effect trace, and the uncaught Python exception when one escaped (the
effects performed before the raise persist). -/
structure StepResult where
  fs : FS
  effects : List Effect
  error : Option String
deriving DecidableEq

/-- Variant body of handle_variant_update (src/utils.py lines 124 to 161):
resolve the inventory (a JSON null makes the comparison None <= 0 raise
TypeError), skip out-of-stock variants, compute the size bucket, create the
per-audience directories, look up the image URL by id, and when a truthy
URL resolves run the placement loop. -/
def processVariant (env : Env) (images : List ImageEntry) (is_girls : Bool) (is_boys : Bool)
    (fs : FS) (v : Variant) : StepResult :=
  match v.inventory_quantity with
  | some none => { fs := fs, effects := [], error := some "TypeError: NoneType not comparable to int" }
  | none => { fs := fs, effects := [], error := none }
  | some (some inventory) =>
    if inventory ≤ 0 then { fs := fs, effects := [], error := none }
    else
      let price := v.price.getD "0"
      let option_values := [v.option1.getD "", v.option2.getD "", v.option3.getD ""]
      let size_option := variantSizeBucket option_values
      let size_directory := joinPath env.cwd size_option
      let girls_directory : Option String :=
        if is_girls then some (joinPath size_directory "girls") else none
      let boys_directory : Option String :=
        if is_boys then some (joinPath size_directory "boys") else none
      let folders := girls_directory.toList ++ boys_directory.toList
      let c := createDirs fs folders
      match findImageSrc images v.image_id with
      | .error e => { fs := c.1, effects := c.2, error := some e }
      | .ok none => { fs := c.1, effects := c.2, error := none }
      | .ok (some url) =>
        if url = "" then { fs := c.1, effects := c.2, error := none }
        else
          let r := processPlacements env c.1 url price size_option v.id folders
          { fs := r.1, effects := c.2 ++ r.2, error := none }

/-- Variant loop of handle_variant_update; an uncaught exception aborts the
remaining variants. -/
def processVariants (env : Env) (images : List ImageEntry) (is_girls : Bool) (is_boys : Bool)
    (fs : FS) : List Variant → StepResult
  | [] => { fs := fs, effects := [], error := none }
  | v :: rest =>
    let r := processVariant env images is_girls is_boys fs v
    match r.error with
    | some e => { fs := r.fs, effects := r.effects, error := some e }
    | none =>
      let r2 := processVariants env images is_girls is_boys r.fs rest
      { fs := r2.fs, effects := r.effects ++ r2.effects, error := r2.error }

/-- Product body of handle_variant_update (src/utils.py lines 116 to 124):
skip unpublished products, classify the audience by substring search on the
lowered tag string, and run the variant loop. -/
def processProduct (env : Env) (fs : FS) (p : Product) : StepResult :=
  if truthyOptStr p.published_at then
    let product_tags := pyLower (p.tags.getD "")
    let is_girls := containsSubstr product_tags "girls"
    let is_boys := containsSubstr product_tags "boys"
    processVariants env p.images is_girls is_boys fs p.variants
  else { fs := fs, effects := [], error := none }

/-- Product loop of handle_variant_update; an uncaught exception aborts the
remaining products. -/
def processProducts (env : Env) (fs : FS) : List Product → StepResult
  | [] => { fs := fs, effects := [], error := none }
  | p :: rest =>
    let r := processProduct env fs p
    match r.error with
    | some e => { fs := r.fs, effects := r.effects, error := some e }
    | none =>
      let r2 := processProducts env r.fs rest
      { fs := r2.fs, effects := r.effects ++ r2.effects, error := r2.error }

/-- handle_variant_update (src/utils.py lines 115 to 161) on an inbound
event payload. -/
def handle_variant_update (env : Env) (payload : Payload) (fs : FS) : StepResult :=
  processProducts env fs payload.productList

/-- Modelled from the spec: the size-token rule exactly as claim C4 words
it — an exact, case-sensitive match of one of the enumerated size
abbreviations, or a bare decimal integer.  Declared only to compare the
claim wording with the source behaviour. -/
def claimedExactSizeToken (v : String) : Bool :=
  ["XS", "S", "M", "L", "XL", "XXL", "XXXL"].contains v ||
    (!v.isEmpty && v.data.all Char.isDigit)

/-- Modelled from the spec: the bucket selection of claim C4 over its
exact-match token rule, for comparison with variantSizeBucket. -/
def claimedSizeBucket (options : List String) : String :=
  ((options.find? claimedExactSizeToken).map sanitize_directory_name).getD "default"

/-- Declarative reading of a successful size_pattern search: some position
carries a word-bounded size token, or some character is a decimal digit. -/
def SizeMatchSpec (s : String) : Prop :=
  (∃ i t, t ∈ sizeTokens ∧ isSubAt (s.data.drop i) t = true ∧
      (i = 0 ∨ wordAt s.data (i - 1) = false) ∧ wordAt s.data (i + t.length) = false) ∨
    (∃ c ∈ s.data, c.isDigit = true)

/-- String without a forward slash. -/
def slashFree (b : String) : Bool := b.data.all (fun c => c != '/')

/-- Shape invariant of the outward effects of handle_variant_update: no
remote deletion is ever issued, and every uploaded key is the
forward-slash-joined string bucket/audience/variantId.jpg with a
slash-free bucket and audience girls or boys. -/
def EffectOK : Effect → Prop
  | .deleteRemote _ => False
  | .put k _ _ =>
      ∃ bucket aud vid, (aud = "girls" ∨ aud = "boys") ∧ slashFree bucket = true ∧
        k = bucket ++ "/" ++ aud ++ "/" ++ toString (vid : Int) ++ ".jpg"
  | _ => True

/-- Empty local filesystem, the state before any delivery. -/
def fs0 : FS := ⟨[], []⟩

/-- Scenario environment: the fetch of the scenario image URL succeeds with
the bytes [1, 2], the digest is the printed byte list, rendering succeeds
and returns the source bytes, and the working directory is /w. -/
def envOk : Env :=
  { fetch := fun u => if u = "http://x/img.jpg" then some [1, 2] else none,
    md5 := fun b => toString b,
    render := fun b _ => some b,
    cwd := "/w" }

/-- Scenario environment in which rendering raises. -/
def envRenderFail : Env := { envOk with render := fun _ _ => none }

/-- Scenario environment in which the image fetch fails (non-200 status or
read exception). -/
def envFetchFail : Env := { envOk with fetch := fun _ => none }

/-- Scenario variant of the spec: id 100, inventory 5, price "129.00",
image_id 9, option1 "M". -/
def vM100 : Variant :=
  { id := 100, image_id := some 9, inventory_quantity := some (some 5),
    price := some "129.00", option1 := some "M", option2 := none, option3 := none }

/-- Scenario variant redelivered with inventory 0. -/
def vOut0 : Variant := { vM100 with inventory_quantity := some (some 0) }

/-- Variant whose inventory_quantity is JSON null. -/
def vNullInv : Variant :=
  { id := 1, image_id := none, inventory_quantity := some none, price := none,
    option1 := none, option2 := none, option3 := none }

/-- Second, well-formed in-stock variant with the scenario image. -/
def vGood2 : Variant :=
  { id := 2, image_id := some 9, inventory_quantity := some (some 3),
    price := some "5", option1 := some "M", option2 := none, option3 := none }

/-- Scenario product of the spec: published, tagged "girls,new", one
variant, one image entry. -/
def prodScenario : Product :=
  { published_at := some "2025-01-01T00:00:00Z",
    tags := some "girls,new",
    variants := [vM100],
    images := [{ id := some 9, src := "http://x/img.jpg" }] }

/-- Scenario product with the published_at field absent or null. -/
def prodUnpublished : Product := { prodScenario with published_at := none }

/-- Scenario product redelivered with the variant out of stock. -/
def prodOut : Product := { prodScenario with variants := [vOut0] }

/-- Product whose first variant has a null inventory_quantity and whose
second variant is eligible. -/
def prodNullThenGood : Product := { prodScenario with variants := [vNullInv, vGood2] }

/-- Scenario event payload. -/
def payScenario : Payload := Payload.single prodScenario

/-- Scenario product tagged with neither "girls" nor "boys". -/
def prodNeutral : Product := { prodScenario with tags := some "unisex,new" }

/-- Scenario product holding only the second, well-formed variant. -/
def prodGoodOnly : Product := { prodScenario with variants := [vGood2] }

/-- download_image_if_new performs exactly one fetch attempt and nothing
else outward, in every branch. -/
theorem download_effects_eq (env : Env) (fs : FS) (url path : String) :
    (download_image_if_new env fs url path).effects = [Effect.fetched url] := by
  unfold download_image_if_new
  cases env.fetch url with
  | none => rfl
  | some data =>
    cases h : fs.lookupFile path with
    | none => simp [h]
    | some ex =>
      by_cases h2 : env.md5 ex = env.md5 data <;> simp [h, h2]

/-- On a failed fetch, download_image_if_new reports no change and leaves
the filesystem untouched. -/
theorem download_fetch_fail (env : Env) (fs : FS) (url path : String)
    (h : env.fetch url = none) :
    download_image_if_new env fs url path = ⟨false, fs, [Effect.fetched url]⟩ := by
  unfold download_image_if_new
  rw [h]

/-- On a successful fetch with no stored file at the target path,
download_image_if_new stores the fetched bytes and reports a change. -/
theorem download_absent_stores (env : Env) (fs : FS) (url path : String) (data : Bytes)
    (hf : env.fetch url = some data) (hl : fs.lookupFile path = none) :
    download_image_if_new env fs url path =
      ⟨true, fs.writeFile path data, [Effect.fetched url]⟩ := by
  unfold download_image_if_new
  rw [hf, hl]

/-- On a successful fetch, download_image_if_new reports no change exactly
when a stored file exists whose digest equals the digest of the fetched
bytes; and in that case the filesystem is untouched. -/
theorem download_changed_false_iff (env : Env) (fs : FS) (url path : String) (data : Bytes)
    (hf : env.fetch url = some data) :
    ((download_image_if_new env fs url path).changed = false ↔
        ∃ ex, fs.lookupFile path = some ex ∧ env.md5 ex = env.md5 data) ∧
      ((download_image_if_new env fs url path).changed = false →
        (download_image_if_new env fs url path).fs = fs) := by
  unfold download_image_if_new
  rw [hf]
  cases hl : fs.lookupFile path with
  | none =>
    refine ⟨⟨fun h => by simp at h, fun ⟨ex, hex, _⟩ => by simp [hl] at hex⟩, fun h => by simp at h⟩
  | some ex =>
    by_cases h2 : env.md5 ex = env.md5 data
    · exact ⟨⟨fun _ => ⟨ex, rfl, h2⟩, fun _ => by simp [h2]⟩, fun _ => by simp [h2]⟩
    · refine ⟨⟨fun h => by simp [h2] at h, fun ⟨ex2, hex2, heq⟩ => ?_⟩, fun h => by simp [h2] at h⟩
      cases hex2
      exact absurd heq h2

/-- When the local file already holds exactly the fetched bytes, the
comparison classifies the delivery as unchanged. -/
theorem download_same_bytes (env : Env) (fs : FS) (url path : String) (data : Bytes)
    (hf : env.fetch url = some data) (hl : fs.lookupFile path = some data) :
    download_image_if_new env fs url path = ⟨false, fs, [Effect.fetched url]⟩ := by
  unfold download_image_if_new
  rw [hf, hl]
  simp

/-- A rendering failure in add_price_to_image is caught: the call returns
normally, performs no outward effect, and keeps the local file. -/
theorem add_price_render_fail (env : Env) (fs : FS) (path price so fn : String) (vid : Int)
    (bytes : Bytes) (p : Int) (hl : fs.lookupFile path = some bytes)
    (hp : pythonIntFloat price = some p)
    (hr : env.render bytes (toString p ++ " DH") = none) :
    add_price_to_image env fs path price so fn vid = (fs, []) := by
  unfold add_price_to_image
  simp only [hl, hp, hr]

/-- add_price_to_image either does nothing, or uploads one object to the
key so/fn/vid.jpg carrying the badge text of the truncated price and then
removes the local source file. -/
theorem add_price_cases (env : Env) (fs : FS) (path price so fn : String) (vid : Int) :
    add_price_to_image env fs path price so fn vid = (fs, []) ∨
      ∃ bytes p rendered, fs.lookupFile path = some bytes ∧ pythonIntFloat price = some p ∧
        env.render bytes (toString p ++ " DH") = some rendered ∧
        add_price_to_image env fs path price so fn vid =
          (fs.removeFile path,
            [Effect.put (so ++ "/" ++ fn ++ "/" ++ toString vid ++ ".jpg")
              (toString p ++ " DH") rendered]) := by
  cases hl : fs.lookupFile path with
  | none => exact Or.inl (by unfold add_price_to_image; simp only [hl])
  | some bytes =>
    cases hp : pythonIntFloat price with
    | none => exact Or.inl (by unfold add_price_to_image; simp only [hl, hp])
    | some p =>
      cases hr : env.render bytes (toString p ++ " DH") with
      | none => exact Or.inl (by unfold add_price_to_image; simp only [hl, hp, hr])
      | some rendered =>
        exact Or.inr ⟨bytes, p, rendered, rfl, rfl, hr,
          by unfold add_price_to_image; simp only [hl, hp, hr]⟩

/-- Unfolding helper for string construction. -/
theorem mk_data (l : List Char) : (String.mk l).data = l := rfl

/-- Sanitized characters are never a forward slash. -/
theorem sanitizeChar_ne_slash (c : Char) : sanitizeChar c ≠ '/' := by
  unfold sanitizeChar
  split
  · decide
  · next h =>
    intro hc
    subst hc
    exact h (by decide)

/-- Sanitized names are slash free. -/
theorem sanitize_slashFree (s : String) : slashFree (sanitize_directory_name s) = true := by
  unfold slashFree sanitize_directory_name
  rw [mk_data, List.all_eq_true]
  intro c hc
  rw [List.mem_map] at hc
  obtain ⟨d, _, rfl⟩ := hc
  simpa using sanitizeChar_ne_slash d

/-- Size buckets are slash free: a sanitized option value or the literal
"default". -/
theorem bucket_slashFree (opts : List String) : slashFree (variantSizeBucket opts) = true := by
  unfold variantSizeBucket
  cases h : opts.find? size_pattern_search with
  | none => decide
  | some v => exact sanitize_slashFree v

/-- Every effect of createDirs is a directory creation. -/
theorem createDirs_ok (fs : FS) (ds : List String) :
    ∀ e ∈ (createDirs fs ds).2, EffectOK e := by
  induction ds generalizing fs with
  | nil => intro e he; simp [createDirs] at he
  | cons d rest ih =>
    intro e he
    simp only [createDirs] at he
    rw [List.mem_append] at he
    cases he with
    | inl h =>
      unfold create_directory at h
      split at h
      · simp at h
      · simp at h
        subst h
        trivial
    | inr h => exact ih _ _ h

/-- Every effect of the placement body satisfies the shape invariant,
provided the size bucket is slash free. -/
theorem processFolder_ok (env : Env) (fs : FS) (url price so : String) (vid : Int)
    (folder : String) (hso : slashFree so = true) :
    ∀ e ∈ (processFolder env fs url price so vid folder).2, EffectOK e := by
  intro e he
  simp only [processFolder] at he
  split at he
  case isTrue hch =>
    rw [download_effects_eq] at he
    rcases add_price_cases env
        (download_image_if_new env fs url (joinPath folder (toString vid ++ ".jpg"))).fs
        (joinPath folder (toString vid ++ ".jpg")) price so
        (if strEndsWith folder "girls" then "girls" else "boys") vid with heq | heq
    · rw [heq] at he
      simp at he
      subst he
      trivial
    · obtain ⟨bytes, p, rendered, _, _, _, heq⟩ := heq
      rw [heq] at he
      simp at he
      cases he with
      | inl h =>
        subst h
        trivial
      | inr h =>
        subst h
        refine ⟨so, if strEndsWith folder "girls" then "girls" else "boys", vid, ?_, hso, rfl⟩
        by_cases hg : strEndsWith folder "girls"
        · simp [hg]
        · simp [hg]
  case isFalse hch =>
    rw [download_effects_eq] at he
    simp at he
    subst he
    trivial

/-- Every effect of the placement loop satisfies the shape invariant. -/
theorem processPlacements_ok (env : Env) (url price so : String) (vid : Int)
    (hso : slashFree so = true) (folders : List String) :
    ∀ fs : FS, ∀ e ∈ (processPlacements env fs url price so vid folders).2, EffectOK e := by
  induction folders with
  | nil => intro fs e he; simp [processPlacements] at he
  | cons folder rest ih =>
    intro fs e he
    simp only [processPlacements] at he
    rw [List.mem_append] at he
    cases he with
    | inl h => exact processFolder_ok env fs url price so vid folder hso e h
    | inr h => exact ih _ e h

/-- Every effect of the variant body satisfies the shape invariant. -/
theorem processVariant_ok (env : Env) (imgs : List ImageEntry) (g b : Bool) (fs : FS)
    (v : Variant) : ∀ e ∈ (processVariant env imgs g b fs v).effects, EffectOK e := by
  intro e he
  simp only [processVariant] at he
  split at he
  · simp at he
  · simp at he
  · split at he
    · simp at he
    · split at he
      · exact createDirs_ok _ _ e he
      · exact createDirs_ok _ _ e he
      · split at he
        · exact createDirs_ok _ _ e he
        · rw [List.mem_append] at he
          cases he with
          | inl h => exact createDirs_ok _ _ e h
          | inr h =>
            exact processPlacements_ok env _ _ _ _ (bucket_slashFree _) _ _ e h

/-- Every effect of the variant loop satisfies the shape invariant. -/
theorem processVariants_ok (env : Env) (imgs : List ImageEntry) (g b : Bool)
    (vs : List Variant) :
    ∀ fs : FS, ∀ e ∈ (processVariants env imgs g b fs vs).effects, EffectOK e := by
  induction vs with
  | nil => intro fs e he; simp [processVariants] at he
  | cons v rest ih =>
    intro fs e he
    simp only [processVariants] at he
    split at he
    · exact processVariant_ok env imgs g b fs v e he
    · rw [List.mem_append] at he
      cases he with
      | inl h => exact processVariant_ok env imgs g b fs v e h
      | inr h => exact ih _ e h

/-- Every effect of the product body satisfies the shape invariant. -/
theorem processProduct_ok (env : Env) (fs : FS) (p : Product) :
    ∀ e ∈ (processProduct env fs p).effects, EffectOK e := by
  intro e he
  simp only [processProduct] at he
  split at he
  · exact processVariants_ok env _ _ _ _ _ e he
  · simp at he

/-- Every effect of the product loop satisfies the shape invariant. -/
theorem processProducts_ok (env : Env) (ps : List Product) :
    ∀ fs : FS, ∀ e ∈ (processProducts env fs ps).effects, EffectOK e := by
  induction ps with
  | nil => intro fs e he; simp [processProducts] at he
  | cons p rest ih =>
    intro fs e he
    simp only [processProducts] at he
    split at he
    · exact processProduct_ok env fs p e he
    · rw [List.mem_append] at he
      cases he with
      | inl h => exact processProduct_ok env fs p e h
      | inr h => exact ih _ e h

/-- Every outward effect of handle_variant_update satisfies the shape
invariant: no remote deletion, and every upload key is
bucket/audience/variantId.jpg. -/
theorem handle_variant_update_ok (env : Env) (payload : Payload) (fs : FS) :
    ∀ e ∈ (handle_variant_update env payload fs).effects, EffectOK e :=
  processProducts_ok env payload.productList fs

/-- A trace whose effects satisfy the shape invariant holds no remote
deletion. -/
theorem countDeletes_eq_zero (l : List Effect) (h : ∀ e ∈ l, EffectOK e) :
    countDeletes l = 0 := by
  unfold countDeletes
  rw [List.length_eq_zero, List.filter_eq_nil_iff]
  intro a ha
  have h2 := h a ha
  cases a with
  | deleteRemote k => exact h2.elim
  | fetched url => simp [Effect.isDelete]
  | mkdir path => simp [Effect.isDelete]
  | put k badge r => simp [Effect.isDelete]

/-- With neither audience flag set, the variant body touches nothing: the
filesystem is returned unchanged and no outward effect happens. -/
theorem processVariant_unclassified (env : Env) (imgs : List ImageEntry) (fs : FS)
    (v : Variant) :
    (processVariant env imgs false false fs v).fs = fs ∧
      (processVariant env imgs false false fs v).effects = [] := by
  simp only [processVariant]
  split
  · exact ⟨rfl, rfl⟩
  · exact ⟨rfl, rfl⟩
  · split
    · exact ⟨rfl, rfl⟩
    · split
      · exact ⟨rfl, rfl⟩
      · exact ⟨rfl, rfl⟩
      · split
        · exact ⟨rfl, rfl⟩
        · exact ⟨rfl, rfl⟩

/-- With neither audience flag set, the variant loop touches nothing. -/
theorem processVariants_unclassified (env : Env) (imgs : List ImageEntry)
    (vs : List Variant) :
    ∀ fs : FS, (processVariants env imgs false false fs vs).fs = fs ∧
      (processVariants env imgs false false fs vs).effects = [] := by
  induction vs with
  | nil => intro fs; exact ⟨rfl, rfl⟩
  | cons v rest ih =>
    intro fs
    have h1 := processVariant_unclassified env imgs fs v
    simp only [processVariants]
    split
    · exact h1
    · constructor
      · rw [h1.1]
        exact (ih fs).1
      · rw [h1.2, List.nil_append, h1.1]
        exact (ih fs).2

/-- Unclassified product: if the lowered tag string contains neither
"girls" nor "boys", handling the product leaves the filesystem unchanged
and performs no outward effect, whatever the variants hold. -/
theorem processProduct_unclassified (env : Env) (fs : FS) (p : Product)
    (hg : containsSubstr (pyLower (p.tags.getD "")) "girls" = false)
    (hb : containsSubstr (pyLower (p.tags.getD "")) "boys" = false) :
    (processProduct env fs p).fs = fs ∧ (processProduct env fs p).effects = [] := by
  simp only [processProduct]
  split
  · rw [hg, hb]
    exact processVariants_unclassified env p.images p.variants fs
  · exact ⟨rfl, rfl⟩

/-- Matching the empty list never succeeds against a nonempty token. -/
theorem isSubAt_nil_cons (n : Char) (ns : List Char) : isSubAt [] (n :: ns) = false := rfl

/-- Characterization of the compiled size pattern: the search succeeds
exactly when some position of the string carries a word-bounded size token
or some character is a decimal digit. -/
theorem size_pattern_search_iff (s : String) :
    size_pattern_search s = true ↔ SizeMatchSpec s := by
  unfold size_pattern_search SizeMatchSpec
  rw [Bool.or_eq_true, List.any_eq_true, List.any_eq_true]
  constructor
  · rintro (⟨i, _, ht⟩ | ⟨c, hc, hd⟩)
    · rw [List.any_eq_true] at ht
      obtain ⟨t, htm, hocc⟩ := ht
      unfold tokenOccursAt at hocc
      rw [Bool.and_eq_true, Bool.and_eq_true] at hocc
      obtain ⟨⟨hsub, hleft⟩, hright⟩ := hocc
      simp only [Bool.or_eq_true, beq_iff_eq, Bool.not_eq_true'] at hleft
      simp only [Bool.not_eq_true'] at hright
      exact Or.inl ⟨i, t, htm, hsub, hleft, hright⟩
    · exact Or.inr ⟨c, hc, hd⟩
  · rintro (⟨i, t, htm, hsub, hleft, hright⟩ | ⟨c, hc, hd⟩)
    · left
      have hne : t ≠ [] := by fin_cases htm <;> simp
      have hle : i ≤ s.data.length := by
        by_contra hgt
        push_neg at hgt
        rw [List.drop_eq_nil_of_le (le_of_lt hgt)] at hsub
        cases t with
        | nil => exact hne rfl
        | cons n ns => rw [isSubAt_nil_cons] at hsub; exact Bool.false_ne_true hsub
      refine ⟨i, List.mem_range.mpr (Nat.lt_succ_of_le hle), ?_⟩
      rw [List.any_eq_true]
      refine ⟨t, htm, ?_⟩
      unfold tokenOccursAt
      rw [Bool.and_eq_true, Bool.and_eq_true]
      refine ⟨⟨hsub, ?_⟩, by simp [hright]⟩
      simp only [Bool.or_eq_true, beq_iff_eq, Bool.not_eq_true']
      exact hleft
    · exact Or.inr ⟨c, hc, hd⟩

/-- C1: the code violates the claimed idempotence.  Delivering the scenario
event twice performs one fetch and one upload on the first delivery, and —
because add_price_to_image removed the local fingerprint file after the
upload (the filesystem holds no files afterwards) — again one fetch and one
upload on the identical second delivery, where the claim requires zero. -/
theorem C1_code_eval :
    countPuts (handle_variant_update envOk payScenario fs0).effects = 1 ∧
      countFetches (handle_variant_update envOk payScenario fs0).effects = 1 ∧
      (handle_variant_update envOk payScenario fs0).fs.files = [] ∧
      countPuts (handle_variant_update envOk payScenario
          (handle_variant_update envOk payScenario fs0).fs).effects = 1 ∧
      countFetches (handle_variant_update envOk payScenario
          (handle_variant_update envOk payScenario fs0).fs).effects = 1 := by
  decide

/-- C2 counterexample: the first delivery of the scenario event creates one
artifact for the variant's one placement; redelivering with
inventory_quantity 0 performs no effect at all — zero deletes, where the
claim requires exactly one delete for the previously created placement. -/
theorem C2_counterexample :
    countPuts (handle_variant_update envOk payScenario fs0).effects = 1 ∧
      (handle_variant_update envOk (Payload.single prodOut)
          (handle_variant_update envOk payScenario fs0).fs).effects = [] ∧
      countDeletes (handle_variant_update envOk (Payload.single prodOut)
          (handle_variant_update envOk payScenario fs0).fs).effects = 0 := by
  decide

/-- C2 amended: an event delivery never issues any remote delete, and a
variant whose stored inventory_quantity is not positive is skipped without
any action, so previously created artifacts of a now out-of-stock variant
remain in place. -/
theorem C2_amended :
    (∀ (env : Env) (payload : Payload) (fs : FS),
        countDeletes (handle_variant_update env payload fs).effects = 0) ∧
      (∀ (env : Env) (imgs : List ImageEntry) (g b : Bool) (fs : FS) (v : Variant) (n : Int),
        v.inventory_quantity = some (some n) → n ≤ 0 →
        processVariant env imgs g b fs v = ⟨fs, [], none⟩) := by
  constructor
  · intro env payload fs
    exact countDeletes_eq_zero _ (handle_variant_update_ok env payload fs)
  · intro env imgs g b fs v n hinv hn
    simp only [processVariant, hinv]
    rw [if_pos hn]

/-- C2 amended, witnessed on the out-of-stock scenario redelivery. -/
theorem C2_amended_witness :
    countDeletes (handle_variant_update envOk (Payload.single prodOut) fs0).effects = 0 ∧
      processVariant envOk [] false false fs0 vOut0 = ⟨fs0, [], none⟩ :=
  ⟨C2_amended.1 envOk (Payload.single prodOut) fs0,
   C2_amended.2 envOk [] false false fs0 vOut0 0 rfl (by decide)⟩

/-- C3 counterexample: the scenario event exactly as the claim lists it
carries no published_at field, so handle_variant_update skips the product
and performs zero puts, not one. -/
theorem C3_counterexample :
    handle_variant_update envOk (Payload.single prodUnpublished) fs0 = ⟨fs0, [], none⟩ ∧
      countPuts (handle_variant_update envOk (Payload.single prodUnpublished) fs0).effects =
        0 := by
  decide

/-- C3 amended: with published_at additionally set (and the image fetch and
rendering succeeding), processing the scenario event performs exactly one
put, to the key "M/girls/100.jpg", carrying badge text "129 DH"; and in
every run of handle_variant_update, every uploaded key is the
forward-slash-joined string bucket/audience/variantId.jpg with a slash-free
bucket and audience "girls" or "boys". -/
theorem C3_amended :
    (handle_variant_update envOk payScenario fs0).effects =
        [Effect.mkdir "/w/M/girls", Effect.fetched "http://x/img.jpg",
          Effect.put "M/girls/100.jpg" "129 DH" [1, 2]] ∧
      countPuts (handle_variant_update envOk payScenario fs0).effects = 1 ∧
      (∀ (env : Env) (payload : Payload) (fs : FS) (k badge : String) (rendered : Bytes),
        Effect.put k badge rendered ∈ (handle_variant_update env payload fs).effects →
        ∃ bucket aud vid, (aud = "girls" ∨ aud = "boys") ∧ slashFree bucket = true ∧
          k = bucket ++ "/" ++ aud ++ "/" ++ toString (vid : Int) ++ ".jpg") := by
  refine ⟨by decide, by decide, ?_⟩
  intro env payload fs k badge rendered hmem
  exact handle_variant_update_ok env payload fs _ hmem

/-- C3 amended, witnessed on the scenario upload key. -/
theorem C3_amended_witness :
    ∃ bucket aud vid, (aud = "girls" ∨ aud = "boys") ∧ slashFree bucket = true ∧
      "M/girls/100.jpg" = bucket ++ "/" ++ aud ++ "/" ++ toString (vid : Int) ++ ".jpg" :=
  C3_amended.2.2 envOk payScenario fs0 "M/girls/100.jpg" "129 DH" [1, 2] (by decide)

/-- C4 counterexample: on the options the claim itself uses, the source
bucket (size_pattern searched over the option values) is "7-8Y", while the
rule the claim states — an exact match of an enumerated abbreviation or a
bare decimal integer — selects no option and yields "default". -/
theorem C4_counterexample :
    variantSizeBucket ["7-8Y", "Blue", ""] = "7-8Y" ∧
      claimedSizeBucket ["7-8Y", "Blue", ""] = "default" := by
  decide

/-- C4 amended: the size bucket takes the first option value on which the
size pattern search succeeds — a word-bounded occurrence of one of XS, S,
M, L, XL, XXL, XXXL (case-sensitive) anywhere in the value, or any decimal
digit anywhere in the value — sanitized by replacing the characters
< > : " / \ | ? * with underscores; if no option matches the bucket is
"default".  The three spec examples hold on the source definition. -/
theorem C4_amended :
    (∀ s : String, size_pattern_search s = true ↔ SizeMatchSpec s) ∧
      sanitize_directory_name "a<b>c:d\"e/f\\g|h?i*j" = "a_b_c_d_e_f_g_h_i_j" ∧
      variantSizeBucket ["7-8Y", "Blue", ""] = "7-8Y" ∧
      variantSizeBucket ["", "", ""] = "default" ∧
      variantSizeBucket ["XL", "Red", ""] = "XL" :=
  ⟨size_pattern_search_iff, by decide, by decide, by decide, by decide⟩

/-- C5: for a product whose lowered tag string contains neither "girls" nor
"boys", processing touches nothing for any of its variants: the local
filesystem (files and directories) is returned unchanged and no fetch,
mkdir, put or delete is performed, whatever the stock levels or images. -/
theorem C5_unclassified_noop (env : Env) (fs : FS) (p : Product)
    (hg : containsSubstr (pyLower (p.tags.getD "")) "girls" = false)
    (hb : containsSubstr (pyLower (p.tags.getD "")) "boys" = false) :
    (processProduct env fs p).fs = fs ∧ (processProduct env fs p).effects = [] :=
  processProduct_unclassified env fs p hg hb

/-- C5, witnessed on a published in-stock scenario product tagged
"unisex,new". -/
theorem C5_witness :
    (processProduct envOk fs0 prodNeutral).fs = fs0 ∧
      (processProduct envOk fs0 prodNeutral).effects = [] :=
  C5_unclassified_noop envOk fs0 prodNeutral (by decide) (by decide)

/-- C6 counterexample: after the scenario artifact was created, redelivering
the identical event while the fetch fails performs only the fetch attempt:
zero deletes (the claim requires the deletion path to fire) and zero puts. -/
theorem C6_counterexample :
    countPuts (handle_variant_update envOk payScenario fs0).effects = 1 ∧
      (handle_variant_update envFetchFail payScenario
          (handle_variant_update envOk payScenario fs0).fs).effects =
        [Effect.fetched "http://x/img.jpg"] ∧
      countDeletes (handle_variant_update envFetchFail payScenario
          (handle_variant_update envOk payScenario fs0).fs).effects = 0 := by
  decide

/-- C6 amended: a failed fetch makes download_image_if_new report "no
change" and leave the filesystem untouched, so the variant's placements
receive neither a put nor a delete that round; indeed no run of
handle_variant_update ever issues a remote delete, so existing artifacts
simply remain. -/
theorem C6_amended :
    (∀ (env : Env) (fs : FS) (url path : String), env.fetch url = none →
        download_image_if_new env fs url path = ⟨false, fs, [Effect.fetched url]⟩) ∧
      (∀ (env : Env) (payload : Payload) (fs : FS),
        countDeletes (handle_variant_update env payload fs).effects = 0) :=
  ⟨fun env fs url path h => download_fetch_fail env fs url path h,
   fun env payload fs => countDeletes_eq_zero _ (handle_variant_update_ok env payload fs)⟩

/-- C6 amended, witnessed on the failing-fetch scenario. -/
theorem C6_amended_witness :
    download_image_if_new envFetchFail fs0 "u" "p" = ⟨false, fs0, [Effect.fetched "u"]⟩ ∧
      countDeletes (handle_variant_update envFetchFail payScenario fs0).effects = 0 :=
  ⟨C6_amended.1 envFetchFail fs0 "u" "p" rfl, C6_amended.2 envFetchFail payScenario fs0⟩

/-- C7 counterexample: when rendering fails, processing the scenario event
returns normally with no upload (the failure is caught), but redelivering
the identical event with a working renderer still performs zero uploads:
the fetched bytes were already written to the local fingerprint file before
the failed rendering, so the comparison classifies them as unchanged and
the variant is not retried — refuting the claimed retry. -/
theorem C7_counterexample :
    (handle_variant_update envRenderFail payScenario fs0).error = none ∧
      countPuts (handle_variant_update envRenderFail payScenario fs0).effects = 0 ∧
      (handle_variant_update envRenderFail payScenario fs0).fs.files =
        [("/w/M/girls/100.jpg", [1, 2])] ∧
      countPuts (handle_variant_update envOk payScenario
          (handle_variant_update envRenderFail payScenario fs0).fs).effects = 0 := by
  decide

/-- C7 amended: a rendering failure is caught — add_price_to_image returns
normally, uploads nothing and keeps the local file — but the variant is not
retried on the next identical delivery: the local file already holds the
fetched bytes, so download_image_if_new classifies them as unchanged. -/
theorem C7_amended :
    (∀ (env : Env) (fs : FS) (path price so fn : String) (vid : Int) (bytes : Bytes)
        (p : Int), fs.lookupFile path = some bytes → pythonIntFloat price = some p →
        env.render bytes (toString p ++ " DH") = none →
        add_price_to_image env fs path price so fn vid = (fs, [])) ∧
      (∀ (env : Env) (fs : FS) (url path : String) (data : Bytes),
        env.fetch url = some data → fs.lookupFile path = some data →
        download_image_if_new env fs url path = ⟨false, fs, [Effect.fetched url]⟩) :=
  ⟨fun env fs path price so fn vid bytes p hl hp hr =>
      add_price_render_fail env fs path price so fn vid bytes p hl hp hr,
   fun env fs url path data hf hl => download_same_bytes env fs url path data hf hl⟩

/-- C7 amended, witnessed on the scenario file and bytes. -/
theorem C7_amended_witness :
    add_price_to_image envRenderFail (fs0.writeFile "p" [1, 2]) "p" "129.00" "M" "girls" 100 =
        (fs0.writeFile "p" [1, 2], []) ∧
      download_image_if_new envOk (fs0.writeFile "p" [1, 2]) "http://x/img.jpg" "p" =
        ⟨false, fs0.writeFile "p" [1, 2], [Effect.fetched "http://x/img.jpg"]⟩ :=
  ⟨C7_amended.1 envRenderFail (fs0.writeFile "p" [1, 2]) "p" "129.00" "M" "girls" 100
      [1, 2] 129 rfl rfl rfl,
   C7_amended.2 envOk (fs0.writeFile "p" [1, 2]) "http://x/img.jpg" "p" [1, 2] rfl rfl⟩

/-- C8: the code violates per-variant error isolation.  An event whose
product holds a variant with a null inventory_quantity followed by an
eligible variant raises out of the processing loop (the comparison of None
with 0), so the eligible variant is never processed and zero uploads
happen, while the same eligible variant alone yields one upload. -/
theorem C8_code_eval :
    (handle_variant_update envOk (Payload.single prodNullThenGood) fs0).error =
        some "TypeError: NoneType not comparable to int" ∧
      countPuts (handle_variant_update envOk (Payload.single prodNullThenGood) fs0).effects =
        0 ∧
      countPuts (handle_variant_update envOk (Payload.single prodGoodOnly) fs0).effects =
        1 := by
  decide

/-- C9: fingerprint semantics of download_image_if_new on a successful
fetch — when no file is stored at the target path the fetched bytes are
stored and the call reports a change; and the call reports "unchanged"
exactly when a stored file exists whose digest equals the digest of the
fetched bytes (in which case nothing is stored). -/
theorem C9_fingerprint (env : Env) (fs : FS) (url path : String) (data : Bytes)
    (hf : env.fetch url = some data) :
    (fs.lookupFile path = none →
        download_image_if_new env fs url path =
          ⟨true, fs.writeFile path data, [Effect.fetched url]⟩) ∧
      ((download_image_if_new env fs url path).changed = false ↔
        ∃ ex, fs.lookupFile path = some ex ∧ env.md5 ex = env.md5 data) ∧
      ((download_image_if_new env fs url path).changed = false →
        (download_image_if_new env fs url path).fs = fs) :=
  ⟨fun hl => download_absent_stores env fs url path data hf hl,
   (download_changed_false_iff env fs url path data hf).1,
   (download_changed_false_iff env fs url path data hf).2⟩

/-- C9, witnessed: an absent file is stored and reported as changed, and a
stored identical file is reported as unchanged. -/
theorem C9_witness :
    download_image_if_new envOk fs0 "http://x/img.jpg" "p" =
        ⟨true, fs0.writeFile "p" [1, 2], [Effect.fetched "http://x/img.jpg"]⟩ ∧
      (download_image_if_new envOk (fs0.writeFile "p" [1, 2]) "http://x/img.jpg" "p").changed =
        false :=
  ⟨(C9_fingerprint envOk fs0 "http://x/img.jpg" "p" [1, 2] rfl).1 rfl,
   (C9_fingerprint envOk (fs0.writeFile "p" [1, 2]) "http://x/img.jpg" "p" [1, 2] rfl).2.1.mpr
      ⟨[1, 2], rfl, rfl⟩⟩

/-- C10: the implicit publish gate — a product whose published_at is
absent, null or empty is skipped entirely: the product body returns the
filesystem unchanged with no effect and no error, and so does
handle_variant_update on an event holding just that product. -/
theorem C10_publish_gate (env : Env) (fs : FS) (p : Product)
    (h : truthyOptStr p.published_at = false) :
    processProduct env fs p = ⟨fs, [], none⟩ ∧
      handle_variant_update env (Payload.single p) fs = ⟨fs, [], none⟩ := by
  have h1 : processProduct env fs p = ⟨fs, [], none⟩ := by
    unfold processProduct
    rw [if_neg (by simp [h])]
  refine ⟨h1, ?_⟩
  unfold handle_variant_update Payload.productList processProducts
  rw [h1]
  rfl

/-- C10, witnessed on the unpublished scenario product. -/
theorem C10_witness :
    processProduct envOk fs0 prodUnpublished = ⟨fs0, [], none⟩ ∧
      handle_variant_update envOk (Payload.single prodUnpublished) fs0 = ⟨fs0, [], none⟩ :=
  C10_publish_gate envOk fs0 prodUnpublished rfl

end StockImages
